import Mathlib

/-!
Verification development for the document-format server.

This file shallowly embeds the parts of the code base that the checked
properties are about:

* the retry / backoff / classification wrapper `_execute_with_retry` of
  `GoogleWorkspaceReader` (readers/google_reader.py) and
  `GoogleWorkspaceWriter` (writers/google_writer.py);
* the PowerPoint generator (writers/powerpoint_writer.py): input validation
  and slide-layout dispatch;
* the Excel reader (readers/excel_reader.py): sheet truncation and the
  column-letter encoding;
* the Word reader (readers/word_reader.py): heading-level derivation and
  the ReadResult outcome shape;
* the Google spreadsheet reader (readers/google_reader.py, read_spreadsheet);
* the Word writer text sanitizer (writers/word_writer.py, _sanitize_text);
* the Excel writer sheet creation (writers/excel_writer.py, _create_sheet).

Python functions are modelled as total Lean functions; raised exceptions
become Except values or explicit result constructors; the observable side
effects that matter to the properties (invocations of the wrapped remote
function, backoff sleeps, construction of native objects, file saves) are
modelled as explicit event traces.
-/

/-! ## Reliability Engine (readers/google_reader.py lines 139-218,
    writers/google_writer.py lines 140-206)

One iteration of the retry loop invokes the wrapped request function once.
The reader wraps the invocation in a single-worker executor whose
future.result call can raise concurrent.futures.TimeoutError; the writer
calls the function directly, so that outcome cannot occur for it.  A single
invocation therefore ends in one of the following ways. -/

/-- Outcome of one invocation of the wrapped request function, as seen by
the reader's retry loop: normal return, googleapiclient HttpError with a
status code, a socket error / socket timeout / TimeoutError, a
concurrent.futures timeout of the executor future, or any other
exception. -/
inductive CallOutcome where
  | success
  | httpError (status : Nat)
  | netError
  | futTimeout
  | otherError
deriving DecidableEq, Repr

/-- Outcome of one invocation as seen by the writer's retry loop: identical
to the reader's, except that there is no executor, hence no separate
future-timeout outcome (a TimeoutError raised by the call itself falls in
the netError class, matching the except clause of the code). -/
inductive WCallOutcome where
  | success
  | httpError (status : Nat)
  | netError
  | otherError
deriving DecidableEq, Repr

/-- Observable effects of the retry loop: an invocation of the wrapped
function, and a time.sleep of the given number of seconds. -/
inductive RetryEvent where
  | invoke
  | sleep (secs : Nat)
deriving DecidableEq, Repr

/-- How the retry loop finishes: the wrapped call's value is returned, the
original HttpError is re-raised, some other original exception is
re-raised, or the loop exhausts max_retries and raises APIError. -/
inductive RetryResult where
  | ok
  | raisedHttp (status : Nat)
  | raisedOther
  | apiError
deriving DecidableEq, Repr

/-- The status-code test of the code: e.resp.status in [429, 500, 502, 503, 504]. -/
def retryableStatus (s : Nat) : Bool :=
  s = 429 || s = 500 || s = 502 || s = 503 || s = 504

/-- An outcome the reader's loop treats as retryable (sleeps and goes on to
the next attempt instead of re-raising). -/
def CallOutcome.isRetryable : CallOutcome → Bool
  | .httpError s => retryableStatus s
  | .netError => true
  | .futTimeout => true
  | _ => false

/-- An outcome that is retryable through the HttpError branch or the
network-error branch (the two branches that sleep unconditionally). -/
def CallOutcome.isRetryableNoTimeout : CallOutcome → Bool
  | .httpError s => retryableStatus s
  | .netError => true
  | _ => false

/-- Body of the reader's retry loop (for attempt in range(self.max_retries)).
The first argument is self.max_retries, f gives the outcome of the
invocation performed at each attempt index, fuel is the number of loop
iterations still to run and attempt the current loop index; the caller
keeps fuel + attempt = maxRetries.  Each branch mirrors one except clause
of google_reader.py:

* success: return result.
* concurrent.futures.TimeoutError: sleep 2^attempt only when
  attempt < max_retries - 1, then continue.
* HttpError with retryable status: sleep 2^attempt (unconditionally) and
  continue; non-retryable status: re-raise.
* socket error / timeout: sleep 2^attempt (unconditionally) and continue.
* any other exception: re-raise.

Falling out of the loop raises APIError. -/
def runRetryAux (maxRetries : Nat) (f : Nat → CallOutcome) :
    Nat → Nat → RetryResult × List RetryEvent
  | 0, _ => (.apiError, [])
  | fuel + 1, attempt =>
    match f attempt with
    | .success => (.ok, [.invoke])
    | .futTimeout =>
      let tail := runRetryAux maxRetries f fuel (attempt + 1)
      if attempt < maxRetries - 1 then
        (tail.1, .invoke :: .sleep (2 ^ attempt) :: tail.2)
      else
        (tail.1, .invoke :: tail.2)
    | .httpError s =>
      if retryableStatus s then
        let tail := runRetryAux maxRetries f fuel (attempt + 1)
        (tail.1, .invoke :: .sleep (2 ^ attempt) :: tail.2)
      else
        (.raisedHttp s, [.invoke])
    | .netError =>
      let tail := runRetryAux maxRetries f fuel (attempt + 1)
      (tail.1, .invoke :: .sleep (2 ^ attempt) :: tail.2)
    | .otherError => (.raisedOther, [.invoke])

/-- GoogleWorkspaceReader._execute_with_retry, as a function from
max_retries and the per-attempt outcomes to the final result and the trace
of invocations and sleeps. -/
def GoogleWorkspaceReader.executeWithRetry (maxRetries : Nat)
    (f : Nat → CallOutcome) : RetryResult × List RetryEvent :=
  runRetryAux maxRetries f maxRetries 0

/-- Body of the writer's retry loop (writers/google_writer.py): the same
loop without the executor wrapper, so there is no future-timeout branch;
every other branch is literally identical to the reader's. -/
def wRunRetryAux (f : Nat → WCallOutcome) :
    Nat → Nat → RetryResult × List RetryEvent
  | 0, _ => (.apiError, [])
  | fuel + 1, attempt =>
    match f attempt with
    | .success => (.ok, [.invoke])
    | .httpError s =>
      if retryableStatus s then
        let tail := wRunRetryAux f fuel (attempt + 1)
        (tail.1, .invoke :: .sleep (2 ^ attempt) :: tail.2)
      else
        (.raisedHttp s, [.invoke])
    | .netError =>
      let tail := wRunRetryAux f fuel (attempt + 1)
      (tail.1, .invoke :: .sleep (2 ^ attempt) :: tail.2)
    | .otherError => (.raisedOther, [.invoke])

/-- GoogleWorkspaceWriter._execute_with_retry. -/
def GoogleWorkspaceWriter.executeWithRetry (maxRetries : Nat)
    (f : Nat → WCallOutcome) : RetryResult × List RetryEvent :=
  wRunRetryAux f maxRetries 0

/-- A writer outcome reread as a reader outcome (the writer's loop is the
reader's loop restricted to outcomes without future timeouts). -/
def WCallOutcome.embed : WCallOutcome → CallOutcome
  | .success => .success
  | .httpError s => .httpError s
  | .netError => .netError
  | .otherError => .otherError

/-- Number of invocations of the wrapped function recorded in a trace. -/
def invokeCount : List RetryEvent → Nat
  | [] => 0
  | .invoke :: rest => invokeCount rest + 1
  | _ :: rest => invokeCount rest

/-- The seconds of the sleeps recorded in a trace, in order. -/
def sleepSeconds : List RetryEvent → List Nat
  | [] => []
  | .sleep n :: rest => n :: sleepSeconds rest
  | _ :: rest => sleepSeconds rest

theorem wRunRetryAux_eq_runRetryAux (f : Nat → WCallOutcome) (m fuel : Nat) :
    ∀ attempt, wRunRetryAux f fuel attempt
      = runRetryAux m (fun i => (f i).embed) fuel attempt := by
  induction fuel with
  | zero => intro a; rfl
  | succ n ih =>
    intro a
    cases hf : f a <;>
      simp [wRunRetryAux, runRetryAux, hf, WCallOutcome.embed, ih]

theorem runRetryAux_retryable (m : Nat) (f : Nat → CallOutcome) (fuel : Nat) :
    ∀ attempt, (∀ i, attempt ≤ i → i < attempt + fuel → (f i).isRetryable = true) →
      (runRetryAux m f fuel attempt).1 = RetryResult.apiError ∧
      invokeCount (runRetryAux m f fuel attempt).2 = fuel := by
  induction fuel with
  | zero => intro attempt _; simp [runRetryAux, invokeCount]
  | succ n ih =>
    intro attempt h
    have ha := h attempt le_rfl (by omega)
    have hrec := ih (attempt + 1) (fun i h1 h2 => h i (by omega) (by omega))
    cases hf : f attempt with
    | success => rw [hf] at ha; simp [CallOutcome.isRetryable] at ha
    | otherError => rw [hf] at ha; simp [CallOutcome.isRetryable] at ha
    | netError =>
      simp only [runRetryAux, hf, invokeCount]
      exact ⟨hrec.1, by rw [hrec.2]⟩
    | futTimeout =>
      by_cases hg : attempt < m - 1 <;>
        simp only [runRetryAux, hf, hg, if_true, if_false, invokeCount,
          reduceIte] <;>
        exact ⟨hrec.1, by rw [hrec.2]⟩
    | httpError s =>
      rw [hf] at ha
      simp only [CallOutcome.isRetryable] at ha
      simp only [runRetryAux, hf, ha, if_true, invokeCount]
      exact ⟨hrec.1, by rw [hrec.2]⟩

theorem executeWithRetry_terminal (m : Nat) (hm : 1 ≤ m)
    (f : Nat → CallOutcome) (s : Nat) (hf : f 0 = .httpError s)
    (hs : retryableStatus s = false) :
    (GoogleWorkspaceReader.executeWithRetry m f).1 = RetryResult.raisedHttp s ∧
    invokeCount (GoogleWorkspaceReader.executeWithRetry m f).2 = 1 := by
  obtain ⟨n, rfl⟩ : ∃ n, m = n + 1 := ⟨m - 1, by omega⟩
  simp [GoogleWorkspaceReader.executeWithRetry, runRetryAux, hf, hs,
    invokeCount]

theorem runRetryAux_sleeps_httpnet (m : Nat) (f : Nat → CallOutcome)
    (fuel : Nat) :
    ∀ attempt,
      (∀ i, attempt ≤ i → i < attempt + fuel →
        (f i).isRetryableNoTimeout = true) →
      sleepSeconds (runRetryAux m f fuel attempt).2
        = (List.range fuel).map (fun i => 2 ^ (attempt + i)) := by
  induction fuel with
  | zero => intro attempt _; simp [runRetryAux, sleepSeconds]
  | succ n ih =>
    intro attempt h
    have ha := h attempt le_rfl (by omega)
    have hrec := ih (attempt + 1) (fun i h1 h2 => h i (by omega) (by omega))
    have hmap : (List.range (n + 1)).map (fun i => 2 ^ (attempt + i))
        = 2 ^ attempt :: (List.range n).map (fun i => 2 ^ (attempt + 1 + i)) := by
      rw [List.range_succ_eq_map, List.map_cons, List.map_map]
      refine congrArg₂ _ (by rw [Nat.add_zero]) ?_
      refine List.map_congr_left (fun a _ => ?_)
      simp only [Function.comp_apply, Nat.succ_eq_add_one]
      rw [show attempt + (a + 1) = attempt + 1 + a by omega]
    cases hf : f attempt with
    | success => rw [hf] at ha; simp [CallOutcome.isRetryableNoTimeout] at ha
    | otherError => rw [hf] at ha; simp [CallOutcome.isRetryableNoTimeout] at ha
    | futTimeout => rw [hf] at ha; simp [CallOutcome.isRetryableNoTimeout] at ha
    | netError =>
      simp only [runRetryAux, hf, sleepSeconds]
      rw [hrec, hmap]
    | httpError s =>
      rw [hf] at ha
      simp only [CallOutcome.isRetryableNoTimeout] at ha
      simp only [runRetryAux, hf, ha, if_true, sleepSeconds]
      rw [hrec, hmap]

theorem runRetryAux_sleeps_futTimeout (m : Nat) (f : Nat → CallOutcome)
    (fuel : Nat) :
    ∀ attempt, attempt + fuel = m →
      (∀ i, attempt ≤ i → i < attempt + fuel → f i = CallOutcome.futTimeout) →
      sleepSeconds (runRetryAux m f fuel attempt).2
        = (List.range (fuel - 1)).map (fun i => 2 ^ (attempt + i)) := by
  induction fuel with
  | zero => intro attempt _ _; simp [runRetryAux, sleepSeconds]
  | succ n ih =>
    intro attempt hm h
    have ha := h attempt le_rfl (by omega)
    have hrec := ih (attempt + 1) (by omega)
      (fun i h1 h2 => h i (by omega) (by omega))
    by_cases hg : attempt < m - 1
    · simp only [runRetryAux, ha, hg, if_true, reduceIte, sleepSeconds]
      rw [hrec]
      obtain ⟨j, rfl⟩ : ∃ j, n = j + 1 := ⟨n - 1, by omega⟩
      simp only [Nat.add_sub_cancel]
      rw [List.range_succ_eq_map, List.map_cons, List.map_map]
      refine congrArg₂ _ (by rw [Nat.add_zero]) ?_
      refine (List.map_congr_left (fun a _ => ?_)).symm
      simp only [Function.comp_apply, Nat.succ_eq_add_one]
      rw [show attempt + (a + 1) = attempt + 1 + a by omega]
    · have hn : n = 0 := by omega
      subst hn
      simp only [runRetryAux, ha, hg, if_false, reduceIte, sleepSeconds]
      simp [runRetryAux, sleepSeconds]

theorem runRetryAux_head_invoke (m : Nat) (f : Nat → CallOutcome)
    (fuel attempt : Nat) :
    (runRetryAux m f (fuel + 1) attempt).2.head? = some RetryEvent.invoke := by
  cases hf : f attempt <;>
    simp only [runRetryAux, hf] <;>
    first
      | rfl
      | (split <;> rfl)

/-- C1: if every invocation of the wrapped function raises a
retryable-classified error (HTTP status in the set 429/500/502/503/504, or
a network / timeout error), both Reliability Engine variants invoke the
wrapped function exactly maxRetries times and then raise APIError; and if
the first invocation raises a terminal-classified HTTP error (any other
status, e.g. 403 or 404), they invoke the function exactly once and
re-raise the original HttpError unchanged. -/
theorem reliability_retry_bound_and_terminal
    (m : Nat) (hm : 1 ≤ m) (f : Nat → CallOutcome) (g : Nat → WCallOutcome) :
    ((∀ i, i < m → (f i).isRetryable = true) →
      (GoogleWorkspaceReader.executeWithRetry m f).1 = RetryResult.apiError ∧
      invokeCount (GoogleWorkspaceReader.executeWithRetry m f).2 = m)
    ∧ (∀ s, f 0 = CallOutcome.httpError s → retryableStatus s = false →
      (GoogleWorkspaceReader.executeWithRetry m f).1 = RetryResult.raisedHttp s ∧
      invokeCount (GoogleWorkspaceReader.executeWithRetry m f).2 = 1)
    ∧ ((∀ i, i < m → ((g i).embed).isRetryable = true) →
      (GoogleWorkspaceWriter.executeWithRetry m g).1 = RetryResult.apiError ∧
      invokeCount (GoogleWorkspaceWriter.executeWithRetry m g).2 = m)
    ∧ (∀ s, g 0 = WCallOutcome.httpError s → retryableStatus s = false →
      (GoogleWorkspaceWriter.executeWithRetry m g).1 = RetryResult.raisedHttp s ∧
      invokeCount (GoogleWorkspaceWriter.executeWithRetry m g).2 = 1) := by
  have hw : GoogleWorkspaceWriter.executeWithRetry m g
      = GoogleWorkspaceReader.executeWithRetry m (fun i => (g i).embed) := by
    unfold GoogleWorkspaceWriter.executeWithRetry
      GoogleWorkspaceReader.executeWithRetry
    exact wRunRetryAux_eq_runRetryAux g m m 0
  refine ⟨?_, ?_, ?_, ?_⟩
  · intro h
    exact runRetryAux_retryable m f m 0 (fun i _ h2 => h i (by omega))
  · intro s hf hs
    exact executeWithRetry_terminal m hm f s hf hs
  · intro h
    rw [hw]
    exact runRetryAux_retryable m (fun i => (g i).embed) m 0
      (fun i _ h2 => h i (by omega))
  · intro s hg hs
    rw [hw]
    exact executeWithRetry_terminal m hm (fun i => (g i).embed) s
      (show (g 0).embed = CallOutcome.httpError s by
        rw [hg, WCallOutcome.embed]) hs

/-- Witness for C1: at max_retries = 3, an always-HTTP-503 call is invoked
3 times and ends in APIError; a first-attempt HTTP 404 (reader) or 403
(writer) is invoked once and re-raised. -/
theorem reliability_retry_bound_and_terminal_witness :
    ((GoogleWorkspaceReader.executeWithRetry 3
        (fun _ => CallOutcome.httpError 503)).1 = RetryResult.apiError ∧
      invokeCount (GoogleWorkspaceReader.executeWithRetry 3
        (fun _ => CallOutcome.httpError 503)).2 = 3)
    ∧ ((GoogleWorkspaceReader.executeWithRetry 3
        (fun _ => CallOutcome.httpError 404)).1 = RetryResult.raisedHttp 404 ∧
      invokeCount (GoogleWorkspaceReader.executeWithRetry 3
        (fun _ => CallOutcome.httpError 404)).2 = 1)
    ∧ ((GoogleWorkspaceWriter.executeWithRetry 3
        (fun _ => WCallOutcome.netError)).1 = RetryResult.apiError ∧
      invokeCount (GoogleWorkspaceWriter.executeWithRetry 3
        (fun _ => WCallOutcome.netError)).2 = 3)
    ∧ ((GoogleWorkspaceWriter.executeWithRetry 3
        (fun _ => WCallOutcome.httpError 403)).1 = RetryResult.raisedHttp 403 ∧
      invokeCount (GoogleWorkspaceWriter.executeWithRetry 3
        (fun _ => WCallOutcome.httpError 403)).2 = 1) := by
  refine ⟨?_, ?_, ?_, ?_⟩
  · exact (reliability_retry_bound_and_terminal 3 (by norm_num)
      (fun _ => CallOutcome.httpError 503) (fun _ => WCallOutcome.success)).1
      (fun i _ => by decide)
  · exact (reliability_retry_bound_and_terminal 3 (by norm_num)
      (fun _ => CallOutcome.httpError 404) (fun _ => WCallOutcome.success)).2.1
      404 rfl (by decide)
  · exact (reliability_retry_bound_and_terminal 3 (by norm_num)
      (fun _ => CallOutcome.success) (fun _ => WCallOutcome.netError)).2.2.1
      (fun i _ => by decide)
  · exact (reliability_retry_bound_and_terminal 3 (by norm_num)
      (fun _ => CallOutcome.success) (fun _ => WCallOutcome.httpError 403)).2.2.2
      403 rfl (by decide)

/-- C2 counterexample: with max_retries = 3 and every attempt failing with
retryable HTTP 500, the engine performs 3 backoff sleeps (1, 2 and 4
seconds), not 3 - 1 = 2: the third sleep happens after the final failed
attempt, before the terminal APIError is raised. -/
theorem reliability_backoff_between_attempts_counterexample :
    sleepSeconds (GoogleWorkspaceReader.executeWithRetry 3
        (fun _ => CallOutcome.httpError 500)).2 = [1, 2, 4]
    ∧ ¬ (sleepSeconds (GoogleWorkspaceReader.executeWithRetry 3
        (fun _ => CallOutcome.httpError 500)).2).length = 3 - 1 := by
  decide

/-- C2 amended: backoff sleeps are exactly 2 ^ attempt_index and never
precede the first attempt; on the executor-timeout path a sleep occurs
only strictly between consecutive attempts, so an all-timeout run of
maxRetries attempts performs maxRetries - 1 sleeps; but the retryable-HTTP
and network-error branches sleep after every failed attempt including the
final one, so a run whose attempts all fail that way performs exactly
maxRetries sleeps, the last occurring after the final attempt before the
terminal APIError. -/
theorem reliability_backoff_schedule
    (m : Nat) (hm : 1 ≤ m) (f : Nat → CallOutcome) (g : Nat → WCallOutcome) :
    (GoogleWorkspaceReader.executeWithRetry m f).2.head? = some RetryEvent.invoke
    ∧ ((∀ i, i < m → (f i).isRetryableNoTimeout = true) →
        sleepSeconds (GoogleWorkspaceReader.executeWithRetry m f).2
          = (List.range m).map (fun i => 2 ^ i))
    ∧ ((∀ i, i < m → f i = CallOutcome.futTimeout) →
        sleepSeconds (GoogleWorkspaceReader.executeWithRetry m f).2
          = (List.range (m - 1)).map (fun i => 2 ^ i))
    ∧ ((∀ i, i < m → ((g i).embed).isRetryableNoTimeout = true) →
        sleepSeconds (GoogleWorkspaceWriter.executeWithRetry m g).2
          = (List.range m).map (fun i => 2 ^ i)) := by
  have hw : GoogleWorkspaceWriter.executeWithRetry m g
      = GoogleWorkspaceReader.executeWithRetry m (fun i => (g i).embed) := by
    unfold GoogleWorkspaceWriter.executeWithRetry
      GoogleWorkspaceReader.executeWithRetry
    exact wRunRetryAux_eq_runRetryAux g m m 0
  refine ⟨?_, ?_, ?_, ?_⟩
  · obtain ⟨n, rfl⟩ : ∃ n, m = n + 1 := ⟨m - 1, by omega⟩
    exact runRetryAux_head_invoke (n + 1) f n 0
  · intro h
    have := runRetryAux_sleeps_httpnet m f m 0 (fun i _ h2 => h i (by omega))
    simpa using this
  · intro h
    have := runRetryAux_sleeps_futTimeout m f m 0 (by omega)
      (fun i _ h2 => h i (by omega))
    simpa using this
  · intro h
    rw [hw]
    have := runRetryAux_sleeps_httpnet m (fun i => (g i).embed) m 0
      (fun i _ h2 => h i (by omega))
    simpa using this

/-- Witness for the amended C2: at max_retries = 3 the sleep schedules are
concretely 1, 2, 4 seconds (all-HTTP-500 and all-network-error runs, with
the run starting on an invocation) and 1, 2 seconds (all-timeout run). -/
theorem reliability_backoff_schedule_witness :
    (GoogleWorkspaceReader.executeWithRetry 3
        (fun _ => CallOutcome.httpError 500)).2.head? = some RetryEvent.invoke
    ∧ sleepSeconds (GoogleWorkspaceReader.executeWithRetry 3
        (fun _ => CallOutcome.httpError 500)).2 = [1, 2, 4]
    ∧ sleepSeconds (GoogleWorkspaceReader.executeWithRetry 3
        (fun _ => CallOutcome.futTimeout)).2 = [1, 2]
    ∧ sleepSeconds (GoogleWorkspaceWriter.executeWithRetry 3
        (fun _ => WCallOutcome.netError)).2 = [1, 2, 4] := by
  refine ⟨?_, ?_, ?_, ?_⟩
  · exact (reliability_backoff_schedule 3 (by norm_num)
      (fun _ => CallOutcome.httpError 500) (fun _ => WCallOutcome.success)).1
  · have h := (reliability_backoff_schedule 3 (by norm_num)
      (fun _ => CallOutcome.httpError 500) (fun _ => WCallOutcome.success)).2.1
      (fun i _ => by decide)
    rw [h]; decide
  · have h := (reliability_backoff_schedule 3 (by norm_num)
      (fun _ => CallOutcome.futTimeout) (fun _ => WCallOutcome.success)).2.2.1
      (fun i _ => rfl)
    rw [h]; decide
  · have h := (reliability_backoff_schedule 3 (by norm_num)
      (fun _ => CallOutcome.success) (fun _ => WCallOutcome.netError)).2.2.2
      (fun i _ => by decide)
    rw [h]; decide

/-! ## PowerPoint generator (writers/powerpoint_writer.py)

The generator's input is a mapping with an optional title and a "slides"
key holding a list of slide mappings; each slide mapping may carry
"layout", "title" and "content" keys.  The typed embedding below
represents an absent key as none; the isinstance checks of _validate_data
(data is a dict, slides is a list, each slide is a dict) are made true by
the types and so cannot fail here, while the two checks that can fail on a
typed input - the missing "slides" key and the per-slide layout check -
are modelled exactly. -/

/-- A slide's "content" value: a string, or a list of items (accepted by
the bullet layout). -/
inductive PptContent where
  | str (s : String)
  | items (xs : List String)
deriving DecidableEq, Repr

/-- One entry of the "slides" list; a field is none when the key is absent
from the slide mapping. -/
structure SlideInput where
  layout : Option String
  title : Option String
  content : Option PptContent
deriving DecidableEq, Repr

/-- The generator's input mapping; slides is none when the "slides" key is
absent. -/
structure PresentationInput where
  title : Option String
  slides : Option (List SlideInput)
deriving DecidableEq, Repr

/-- The ValidationError raised by PowerPointWriter._validate_data on a
typed input. -/
inductive PptValidationError where
  | slidesKeyMissing
  | invalidLayout (slideIndex : Nat) (layout : String)
deriving DecidableEq, Repr

/-- The per-slide loop of _validate_data: layout =
slide_data.get("layout", "content"); raise when layout is not one of
title / content / bullet; idx is the enumerate index. -/
def validateSlides : Nat → List SlideInput → Except PptValidationError Unit
  | _, [] => .ok ()
  | idx, s :: rest =>
    let layout := s.layout.getD "content"
    if layout ∈ (["title", "content", "bullet"] : List String) then
      validateSlides (idx + 1) rest
    else
      .error (.invalidLayout idx layout)

/-- PowerPointWriter._validate_data on a typed input. -/
def PowerPointWriter.validateData (data : PresentationInput) :
    Except PptValidationError Unit :=
  match data.slides with
  | none => .error .slidesKeyMissing
  | some slides => validateSlides 0 slides

/-- Which slide layout _create_slide builds: layout_type =
slide_data.get("layout", "content"); "title" and "bullet" pick their
branches and everything else falls to the content branch. -/
inductive SlideKind where
  | titleSlide
  | contentSlide
  | bulletSlide
deriving DecidableEq, Repr

def PowerPointWriter.createSlideKind (s : SlideInput) : SlideKind :=
  let layoutType := s.layout.getD "content"
  if layoutType = "title" then .titleSlide
  else if layoutType = "bullet" then .bulletSlide
  else .contentSlide

/-- Observable effects of create_presentation: constructing the native
Presentation object, adding one slide, saving the file at a path. -/
inductive GenStep where
  | constructPresentation
  | addSlide (kind : SlideKind)
  | saveFile (path : String)
deriving DecidableEq, Repr

/-- PowerPointWriter.create_presentation, as final outcome plus effect
trace: _validate_data runs first and a ValidationError propagates with no
effect performed; only on success is Presentation() constructed, each
slide of data.get("slides", []) added, and the file saved. -/
def PowerPointWriter.createPresentation (data : PresentationInput)
    (outputPath : String) :
    Except PptValidationError String × List GenStep :=
  match PowerPointWriter.validateData data with
  | .error e => (.error e, [])
  | .ok () =>
    let slides := data.slides.getD []
    (.ok outputPath,
      GenStep.constructPresentation
        :: slides.map (fun s => GenStep.addSlide (PowerPointWriter.createSlideKind s))
        ++ [GenStep.saveFile outputPath])

/-- The value handed back by the tool boundary: a success payload or an
error payload tagged with the error kind. -/
inductive ToolResponse where
  | ok (outputPath : String)
  | failed (errType : String)
deriving DecidableEq, Repr

/-- tools/tool_handlers.py handle_write_powerpoint: the writer call is
wrapped in try/except; a DocumentMCPError - in particular the
ValidationError raised by validation - becomes an error response value and
is not re-raised past the boundary. -/
def ToolHandlers.handleWritePowerpoint (data : PresentationInput)
    (outputPath : String) : ToolResponse × List GenStep :=
  match PowerPointWriter.createPresentation data outputPath with
  | (.error _, steps) => (.failed "ValidationError", steps)
  | (.ok p, steps) => (.ok p, steps)

/-- C3: every generation input rejected by validation fails before any
native Presentation object is constructed and before any file is written
(the trace holds no construction and no save of the target path, so the
path does not come to exist), and the boundary reports the failure as a
failed result value instead of raising. -/
theorem ppt_validation_short_circuit
    (data : PresentationInput) (outputPath : String)
    (e : PptValidationError)
    (h : PowerPointWriter.validateData data = .error e) :
    (PowerPointWriter.createPresentation data outputPath).2 = []
    ∧ GenStep.saveFile outputPath ∉
        (PowerPointWriter.createPresentation data outputPath).2
    ∧ GenStep.constructPresentation ∉
        (PowerPointWriter.createPresentation data outputPath).2
    ∧ (ToolHandlers.handleWritePowerpoint data outputPath).1
        = ToolResponse.failed "ValidationError" := by
  simp [PowerPointWriter.createPresentation, h,
    ToolHandlers.handleWritePowerpoint]

/-- Witness for C3, at the spec's concrete input: one slide whose layout
is the string not-a-real-layout.  Validation rejects it, nothing is
constructed or saved, and the boundary returns a failed result. -/
theorem ppt_validation_short_circuit_witness :
    (PowerPointWriter.createPresentation
        ⟨none, some [⟨some "not-a-real-layout", none, none⟩]⟩
        "output.pptx").2 = []
    ∧ GenStep.saveFile "output.pptx" ∉
        (PowerPointWriter.createPresentation
          ⟨none, some [⟨some "not-a-real-layout", none, none⟩]⟩
          "output.pptx").2
    ∧ GenStep.constructPresentation ∉
        (PowerPointWriter.createPresentation
          ⟨none, some [⟨some "not-a-real-layout", none, none⟩]⟩
          "output.pptx").2
    ∧ (ToolHandlers.handleWritePowerpoint
        ⟨none, some [⟨some "not-a-real-layout", none, none⟩]⟩
        "output.pptx").1 = ToolResponse.failed "ValidationError" :=
  ppt_validation_short_circuit
    ⟨none, some [⟨some "not-a-real-layout", none, none⟩]⟩
    "output.pptx" (.invalidLayout 0 "not-a-real-layout") (by rfl)

/-- C10: a slide entry with no "layout" key is accepted by validation and
rendered through the content branch; and an invalid-layout
ValidationError reports a layout value only when some slide carries an
explicit "layout" key holding a value outside title / content / bullet. -/
theorem ppt_missing_layout_defaults_to_content :
    (∀ (t : Option String) (c : Option PptContent) (idx : Nat),
      validateSlides idx [⟨none, t, c⟩] = .ok ()
      ∧ PowerPointWriter.createSlideKind ⟨none, t, c⟩ = SlideKind.contentSlide)
    ∧ (∀ idx slides i l,
        validateSlides idx slides = .error (.invalidLayout i l) →
        ∃ s ∈ slides, s.layout = some l
          ∧ l ∉ (["title", "content", "bullet"] : List String)) := by
  constructor
  · intro t c idx
    constructor
    · simp [validateSlides]
    · simp [PowerPointWriter.createSlideKind]
  · intro idx slides
    induction slides generalizing idx with
    | nil => intro i l h; simp [validateSlides] at h
    | cons s rest ih =>
      intro i l h
      simp only [validateSlides] at h
      by_cases hmem : (s.layout.getD "content")
          ∈ (["title", "content", "bullet"] : List String)
      · rw [if_pos hmem] at h
        obtain ⟨s', hs', hl⟩ := ih (idx + 1) i l h
        exact ⟨s', List.mem_cons_of_mem s hs', hl⟩
      · rw [if_neg hmem] at h
        cases hcase : s.layout with
        | none =>
          exfalso
          rw [hcase] at hmem
          simp [Option.getD] at hmem
        | some v =>
          rw [hcase] at h hmem
          simp only [Option.getD] at h hmem
          injection h with h1
          injection h1 with hidx hlay
          exact ⟨s, List.mem_cons_self s rest,
            by rw [hcase, hlay], by rw [← hlay]; exact hmem⟩

/-- Witness for C10: the single slide with no layout key validates and is
rendered via the content branch. -/
theorem ppt_missing_layout_defaults_to_content_witness :
    validateSlides 0 [⟨none, none, none⟩] = .ok ()
    ∧ PowerPointWriter.createSlideKind ⟨none, none, none⟩
        = SlideKind.contentSlide :=
  ppt_missing_layout_defaults_to_content.1 none none 0

/-! ## Excel reader (readers/excel_reader.py)

A worksheet is modelled as its title and its grid of cells in native
order.  A cell records str(cell.value) for a non-None value (none models a
Python None cell) and whether cell.data_type marks it as a formula. -/

/-- One native cell as seen through openpyxl with data_only=False. -/
structure NativeCell where
  value : Option String
  isFormula : Bool
deriving DecidableEq, Repr

/-- One native worksheet. -/
structure Worksheet where
  title : String
  rows : List (List NativeCell)
deriving DecidableEq, Repr

/-- ExcelReader._get_column_letter: while col_idx > 0: col_idx -= 1;
result = chr(col_idx % 26 + ord A) + result; col_idx //= 26. -/
def ExcelReader.getColumnLetter (colIdx : Nat) : String :=
  if colIdx = 0 then ""
  else
    ExcelReader.getColumnLetter ((colIdx - 1) / 26)
      ++ (Char.ofNat ((colIdx - 1) % 26 + 65)).toString
termination_by colIdx
decreasing_by
  have h1 : (colIdx - 1) / 26 ≤ colIdx - 1 := Nat.div_le_self _ _
  omega

/-- How an f-string renders an optional value (None prints as None). -/
def pyStrOpt : Option String → String
  | some s => s
  | none => "None"

/-- The per-sheet data produced by _extract_sheet_data: sheet name, the
string grid, and the formulas mapping as an association list in insertion
order. -/
structure SheetData where
  name : String
  data : List (List String)
  formulas : List (String × String)
deriving DecidableEq, Repr

/-- The inner column loop of _extract_sheet_data: a formula cell appends
"=" ++ str(cell.value) to the row and records str(cell.value) under
address column-letter ++ row-number; any other cell appends str of its
value, with None becoming the empty string. -/
def extractRowCells (rowIdx : Nat) : Nat → List NativeCell →
    List String × List (String × String)
  | _, [] => ([], [])
  | colIdx, c :: rest =>
    let (ds, fs) := extractRowCells rowIdx (colIdx + 1) rest
    if c.isFormula then
      (("=" ++ pyStrOpt c.value) :: ds,
        (ExcelReader.getColumnLetter colIdx ++ toString rowIdx,
          pyStrOpt c.value) :: fs)
    else
      ((match c.value with | some s => s | none => "") :: ds, fs)

/-- The outer row loop of _extract_sheet_data (rows enumerated from 1,
columns from 1). -/
def extractRowsAux : Nat → List (List NativeCell) →
    List (List String) × List (String × String)
  | _, [] => ([], [])
  | rowIdx, r :: rest =>
    let (d, f) := extractRowCells rowIdx 1 r
    let (ds, fs) := extractRowsAux (rowIdx + 1) rest
    (d :: ds, f ++ fs)

/-- ExcelReader._extract_sheet_data; the early return for
sheet.max_row == 0 or sheet.max_column == 0 corresponds to a sheet with no
cell rows at all. -/
def ExcelReader.extractSheetData (sheet : Worksheet) : SheetData :=
  if sheet.rows.isEmpty then
    { name := sheet.title, data := [], formulas := [] }
  else
    let (d, f) := extractRowsAux 1 sheet.rows
    { name := sheet.title, data := d, formulas := f }

/-- Result mapping of ExcelReader.read_file: the sheets list plus the
optional truncation-warning key. -/
structure ExcelReadData where
  sheets : List SheetData
  warning : Option String
deriving DecidableEq, Repr

/-- The exceptions ExcelReader.read_file raises. -/
inductive ExcelReadError where
  | fileNotFound (msg : String)
  | corruptedFile (msg : String)
deriving DecidableEq, Repr

/-- The state of the source path as the reader observes it: missing, a
file openpyxl cannot load (InvalidFileException), or a loadable workbook
with its byte size and worksheets in native order. -/
inductive ExcelFile where
  | missing
  | unreadable (sizeBytes : Nat)
  | workbook (sizeBytes : Nat) (worksheets : List Worksheet)
deriving DecidableEq, Repr

/-- ExcelReader.read_file.  The float comparison
size / (1024*1024) > max_file_size_mb of the code is exact for integer
inputs and equals sizeBytes > maxFileSizeMb * 1048576.  When the sheet
count exceeds max_sheets, only the first max_sheets worksheets are
processed and the warning key is attached; no error is raised for that
case. -/
def ExcelReader.readFile (maxSheets maxFileSizeMb : Nat) (filePath : String)
    (file : ExcelFile) : Except ExcelReadError ExcelReadData :=
  match file with
  | .missing =>
    .error (.fileNotFound ("指定されたファイルが見つかりません: " ++ filePath))
  | .unreadable size =>
    if size > maxFileSizeMb * 1048576 then
      .error (.corruptedFile ("ファイルサイズが制限を超えています: " ++ filePath))
    else
      .error (.corruptedFile
        ("Excelファイルが破損しているか、読み取り不可能です: " ++ filePath))
  | .workbook size wss =>
    if size > maxFileSizeMb * 1048576 then
      .error (.corruptedFile ("ファイルサイズが制限を超えています: " ++ filePath))
    else
      let sheetCount := wss.length
      let sheetsToProcess :=
        if sheetCount > maxSheets then wss.take maxSheets else wss
      let sheetsData := sheetsToProcess.map ExcelReader.extractSheetData
      let warning :=
        if sheetCount > maxSheets then
          some ("ファイルには" ++ toString sheetCount
            ++ "個のシートがありますが、最初の" ++ toString maxSheets
            ++ "シートのみを処理しました。")
        else none
      .ok { sheets := sheetsData, warning := warning }

/-- C4: a loadable in-size workbook with more worksheets than max_sheets
still extracts successfully: the call returns ok (raises nothing), the
result holds exactly the first max_sheets worksheets in native order, a
truncation warning is attached, and the sheet count carried by the result
is max_sheets, not the file's true total. -/
theorem excel_sheet_truncation_nonfatal
    (maxSheets maxFileSizeMb : Nat) (filePath : String) (size : Nat)
    (wss : List Worksheet)
    (hsize : ¬ size > maxFileSizeMb * 1048576)
    (hcount : wss.length > maxSheets) :
    ∃ r, ExcelReader.readFile maxSheets maxFileSizeMb filePath
        (.workbook size wss) = .ok r
      ∧ r.sheets = (wss.take maxSheets).map ExcelReader.extractSheetData
      ∧ r.sheets.length = maxSheets
      ∧ r.warning.isSome = true
      ∧ r.sheets.length ≠ wss.length := by
  refine ⟨{ sheets := (wss.take maxSheets).map ExcelReader.extractSheetData,
            warning := some ("ファイルには" ++ toString wss.length
              ++ "個のシートがありますが、最初の" ++ toString maxSheets
              ++ "シートのみを処理しました。") }, ?_, rfl, ?_, rfl, ?_⟩
  · simp only [ExcelReader.readFile, if_neg hsize, if_pos hcount]
  · rw [List.length_map, List.length_take]
    omega
  · rw [List.length_map, List.length_take]
    omega

/-- Witness for C4: a two-sheet workbook read with max_sheets = 1. -/
theorem excel_sheet_truncation_nonfatal_witness :
    ∃ r, ExcelReader.readFile 1 100 "book.xlsx"
        (.workbook 0 [⟨"Sheet1", []⟩, ⟨"Sheet2", []⟩]) = .ok r
      ∧ r.sheets = ([(⟨"Sheet1", []⟩ : Worksheet)].map
          ExcelReader.extractSheetData)
      ∧ r.sheets.length = 1
      ∧ r.warning.isSome = true
      ∧ r.sheets.length ≠ 2 :=
  excel_sheet_truncation_nonfatal 1 100 "book.xlsx" 0
    [⟨"Sheet1", []⟩, ⟨"Sheet2", []⟩] (by decide) (by decide)

/-- Unfolding of _get_column_letter for a positive column index. -/
theorem getColumnLetter_eq_pos (n : Nat) (h : n ≠ 0) :
    ExcelReader.getColumnLetter n
      = ExcelReader.getColumnLetter ((n - 1) / 26)
        ++ (Char.ofNat ((n - 1) % 26 + 65)).toString := by
  conv_lhs => rw [ExcelReader.getColumnLetter.eq_def]
  rw [if_neg h]

/-- Modelled from the spec: the reference reading of the 1-indexed
bijective base-26 encoding.  A letter A through Z denotes 1 through 26,
and a letter string d_k ... d_0 denotes the sum of d_i * 26 ^ i; this is
the decode direction of the encoding the spec names (1 maps to A, 26 to
Z, 27 to AA), kept separate from the code's _get_column_letter so the two
can be compared. -/
def bijBase26Val (s : String) : Nat :=
  s.data.foldl (fun acc c => acc * 26 + (c.toNat - 64)) 0

theorem bijBase26Val_append_char (s : String) (c : Char) :
    bijBase26Val (s ++ c.toString)
      = bijBase26Val s * 26 + (c.toNat - 64) := by
  simp [bijBase26Val, Char.toString, List.foldl_append]

theorem charOfNat_toNat (k : Nat) (h : k < 55296) :
    (Char.ofNat k).toNat = k := by
  simp [Char.ofNat, Nat.isValidChar, h, Char.ofNatAux, Char.toNat,
    UInt32.toNat, BitVec.toNat_ofNatLt]

/-- The code's column-letter string decodes, under the spec's bijective
base-26 reading, back to the column index it was produced from. -/
theorem bijBase26Val_getColumnLetter (n : Nat) :
    bijBase26Val (ExcelReader.getColumnLetter n) = n := by
  induction n using Nat.strong_induction_on with
  | _ n ih =>
    by_cases h : n = 0
    · subst h
      simp [ExcelReader.getColumnLetter, bijBase26Val]
    · have hlt : (n - 1) / 26 < n := by
        have := Nat.div_le_self (n - 1) 26
        omega
      rw [getColumnLetter_eq_pos n h, bijBase26Val_append_char,
        charOfNat_toNat _ (by omega), ih _ hlt]
      omega

/-- Every character the code's encoding emits is one of the letters A
through Z. -/
theorem getColumnLetter_chars (n : Nat) :
    ∀ c ∈ (ExcelReader.getColumnLetter n).data,
      65 ≤ c.toNat ∧ c.toNat ≤ 90 := by
  induction n using Nat.strong_induction_on with
  | _ n ih =>
    by_cases h : n = 0
    · subst h
      intro c hc
      simp [ExcelReader.getColumnLetter] at hc
    · have hlt : (n - 1) / 26 < n := by
        have := Nat.div_le_self (n - 1) 26
        omega
      intro c hc
      rw [getColumnLetter_eq_pos n h, String.data_append] at hc
      rcases List.mem_append.mp hc with hc1 | hc2
      · exact ih _ hlt c hc1
      · have : c = Char.ofNat ((n - 1) % 26 + 65) := by
          simpa [Char.toString] using hc2
        subst this
        rw [charOfNat_toNat _ (by omega)]
        omega

/-- C6: the column-letter encoding used for formula cell addresses is the
1-indexed bijective base-26 encoding: its output decodes back to the
column index under the spec's reference reading, uses only letters A-Z,
and agrees with the reference on the spec's sample inputs 1, 26, 27, 52,
53, 702 and 703. -/
theorem excel_column_letter_encoding :
    (∀ n : Nat, bijBase26Val (ExcelReader.getColumnLetter n) = n)
    ∧ (∀ n : Nat, ∀ c ∈ (ExcelReader.getColumnLetter n).data,
        65 ≤ c.toNat ∧ c.toNat ≤ 90)
    ∧ ExcelReader.getColumnLetter 1 = "A"
    ∧ ExcelReader.getColumnLetter 26 = "Z"
    ∧ ExcelReader.getColumnLetter 27 = "AA"
    ∧ ExcelReader.getColumnLetter 52 = "AZ"
    ∧ ExcelReader.getColumnLetter 53 = "BA"
    ∧ ExcelReader.getColumnLetter 702 = "ZZ"
    ∧ ExcelReader.getColumnLetter 703 = "AAA" := by
  refine ⟨bijBase26Val_getColumnLetter, getColumnLetter_chars,
    ?_, ?_, ?_, ?_, ?_, ?_, ?_⟩ <;>
    · simp [ExcelReader.getColumnLetter]
      decide

/-- Witness for C6: the general conjuncts evaluated at column 27 and at
the letter A of column 1's encoding. -/
theorem excel_column_letter_encoding_witness :
    bijBase26Val (ExcelReader.getColumnLetter 27) = 27
    ∧ (65 ≤ Char.toNat 'A' ∧ Char.toNat 'A' ≤ 90) :=
  ⟨excel_column_letter_encoding.1 27,
    excel_column_letter_encoding.2.1 1 'A'
      (by rw [excel_column_letter_encoding.2.2.1]; decide)⟩

/-! ## Word reader heading levels (readers/word_reader.py lines 164-181)

The Python string operations involved (startswith, split with no
separator, int) are modelled structurally over character lists so that
they evaluate. -/

/-- Python str.startswith. -/
def pyStartsWith (s pat : String) : Bool :=
  pat.data.isPrefixOf s.data

/-- Helper of the no-separator split: cur holds the characters of the
token being built, in reverse. -/
def pySplitWsAux : List Char → List Char → List String
  | [], [] => []
  | [], cur => [String.mk cur.reverse]
  | c :: rest, cur =>
    if c.isWhitespace then
      if cur = [] then pySplitWsAux rest []
      else String.mk cur.reverse :: pySplitWsAux rest []
    else pySplitWsAux rest (c :: cur)

/-- Python str.split() with no separator: the maximal runs of
non-whitespace characters, leading and trailing whitespace ignored. -/
def pySplitWs (s : String) : List String :=
  pySplitWsAux s.data []

/-- Drop leading whitespace characters. -/
def dropLeadingWs : List Char → List Char
  | [] => []
  | c :: rest => if c.isWhitespace then dropLeadingWs rest else c :: rest

/-- Python str.strip() on the character list (whitespace on both ends). -/
def pyStripChars (cs : List Char) : List Char :=
  (dropLeadingWs (dropLeadingWs cs).reverse).reverse

/-- Python str.strip(). -/
def pyStrip (s : String) : String :=
  String.mk (pyStripChars s.data)

/-- Digit run of a Python int literal: decimal digits optionally
separated by single underscores (an underscore must sit between two
digits); acc is the value accumulated so far. -/
def pyIntDigitsAux (acc : Nat) : List Char → Option Nat
  | [] => some acc
  | '_' :: c :: rest =>
    if c.isDigit then pyIntDigitsAux (acc * 10 + (c.toNat - 48)) rest
    else none
  | c :: rest =>
    if c.isDigit then pyIntDigitsAux (acc * 10 + (c.toNat - 48)) rest
    else none

/-- Python int() applied to a string: surrounding whitespace stripped, an
optional sign, then a digit run; anything else raises ValueError,
modelled as none. -/
def pyParseInt (s : String) : Option Int :=
  match pyStripChars s.data with
  | '+' :: c :: rest =>
    if c.isDigit then (pyIntDigitsAux (c.toNat - 48) rest).map
      (fun n => (n : Int))
    else none
  | '-' :: c :: rest =>
    if c.isDigit then (pyIntDigitsAux (c.toNat - 48) rest).map
      (fun n => -(n : Int))
    else none
  | c :: rest =>
    if c.isDigit then (pyIntDigitsAux (c.toNat - 48) rest).map
      (fun n => (n : Int))
    else none
  | [] => none

/-- WordReader._get_heading_level: when the style name starts with
Heading, int(style_name.split()[-1]) is the level, with ValueError and
IndexError caught and mapped to 0; any other style name gives 0.  The
parsed integer is returned as is - the code does not clamp it to any
range. -/
def WordReader.getHeadingLevel (styleName : String) : Int :=
  if pyStartsWith styleName "Heading" then
    match (pySplitWs styleName).getLast? with
    | none => 0
    | some tok =>
      match pyParseInt tok with
      | none => 0
      | some n => n
  else 0

/-- C5 counterexample: the style Heading 15 derives level 15, which is
neither 0 nor in the claimed range 1-9 - the code does not clamp the
parsed trailing integer. -/
theorem word_heading_level_range_counterexample :
    WordReader.getHeadingLevel "Heading 15" = 15
    ∧ ¬ (WordReader.getHeadingLevel "Heading 15" = 0
      ∨ (1 ≤ WordReader.getHeadingLevel "Heading 15"
        ∧ WordReader.getHeadingLevel "Heading 15" ≤ 9)) := by
  decide

/-- C5 amended: the heading level is derived only from the style name.
A style that does not start with Heading derives level 0 (so Normal gives
0); a style starting with Heading derives the integer parsed from its
last whitespace-separated token, unclamped (Heading 3 gives 3, Heading 9
gives 9, Heading 15 gives 15, and a style such as Headings 7 whose first
word merely extends Heading also parses); a failed parse (Heading X, or
bare Heading) derives 0 without raising. -/
theorem word_heading_level_derivation :
    (∀ s : String, pyStartsWith s "Heading" = false →
      WordReader.getHeadingLevel s = 0)
    ∧ WordReader.getHeadingLevel "Heading 3" = 3
    ∧ WordReader.getHeadingLevel "Heading 1" = 1
    ∧ WordReader.getHeadingLevel "Heading 9" = 9
    ∧ WordReader.getHeadingLevel "Heading 15" = 15
    ∧ WordReader.getHeadingLevel "Headings 7" = 7
    ∧ WordReader.getHeadingLevel "Heading X" = 0
    ∧ WordReader.getHeadingLevel "Heading" = 0
    ∧ WordReader.getHeadingLevel "Normal" = 0 := by
  refine ⟨?_, by decide, by decide, by decide, by decide, by decide,
    by decide, by decide, by decide⟩
  intro s h
  simp [WordReader.getHeadingLevel, h]

/-- Witness for the amended C5: the general conjunct applied at the
non-heading style Body Text, alongside the Heading 3 case. -/
theorem word_heading_level_derivation_witness :
    WordReader.getHeadingLevel "Body Text" = 0
    ∧ WordReader.getHeadingLevel "Heading 3" = 3 :=
  ⟨word_heading_level_derivation.1 "Body Text" (by decide),
    word_heading_level_derivation.2.1⟩

/-! ## Word writer text sanitization (writers/word_writer.py lines 20-35) -/

/-- The character class deleted by the regex of _sanitize_text:
x00-x08, x0B, x0C and x0E-x1F; tab (x09), newline (x0A) and carriage
return (x0D) are outside the class. -/
def isStrippedCtl (c : Char) : Bool :=
  c.toNat ≤ 8 || c.toNat = 11 || c.toNat = 12
    || (14 ≤ c.toNat && c.toNat ≤ 31)

/-- word_writer._sanitize_text on a string input: re.sub deletes every
character of the class and keeps everything else in place. -/
def sanitizeText (text : String) : String :=
  String.mk (text.data.filter (fun c => ! isStrippedCtl c))

theorem count_filter_of_pred {α} [DecidableEq α] (p : α → Bool)
    (l : List α) (c : α) (h : p c = true) :
    (l.filter p).count c = l.count c := by
  induction l with
  | nil => rfl
  | cons a l ih =>
    by_cases ha : p a = true
    · rw [List.filter_cons_of_pos ha, List.count_cons, List.count_cons, ih]
    · rw [List.filter_cons_of_neg (by simpa using ha)]
      have hne : a ≠ c := fun hac => ha (hac ▸ h)
      rw [ih, List.count_cons_of_ne (fun hca => hne hca.symm)]

/-- C8: sanitization deletes exactly the characters of the class
x00-x08, x0B, x0C, x0E-x1F and nothing else: the output is a sublist of
the input, contains no character of the class, and keeps every character
outside the class with its multiplicity; tab, newline and carriage
return are outside the class; and a concrete mixed string keeps its
order and its whitelisted control characters. -/
theorem word_sanitize_exact :
    (∀ s : String, (sanitizeText s).data.Sublist s.data)
    ∧ (∀ s : String, ∀ c ∈ (sanitizeText s).data, isStrippedCtl c = false)
    ∧ (∀ (s : String) (c : Char), isStrippedCtl c = false →
        (sanitizeText s).data.count c = s.data.count c)
    ∧ isStrippedCtl (Char.ofNat 9) = false
    ∧ isStrippedCtl (Char.ofNat 10) = false
    ∧ isStrippedCtl (Char.ofNat 13) = false
    ∧ (∀ c : Char, c.toNat ≤ 8 ∨ c.toNat = 11 ∨ c.toNat = 12
        ∨ (14 ≤ c.toNat ∧ c.toNat ≤ 31) → isStrippedCtl c = true)
    ∧ sanitizeText "a\u0000b\u0001\tc\nd\re\u001f" = "ab\tc\nd\re" := by
  refine ⟨?_, ?_, ?_, by decide, by decide, by decide, ?_, by decide⟩
  · intro s
    exact List.filter_sublist s.data
  · intro s c hc
    have := (List.mem_filter.mp hc).2
    simpa using this
  · intro s c hc
    exact count_filter_of_pred _ s.data c (by simp [hc])
  · intro c hc
    simp only [isStrippedCtl]
    rcases hc with h | h | h | h
    · simp [h]
    · simp [h]
    · simp [h]
    · have h14 : 14 ≤ c.toNat := h.1
      have h31 : c.toNat ≤ 31 := h.2
      simp [Nat.le_of_eq, decide_eq_true_eq, h14, h31]

/-- Witness for C8: the multiplicity conjunct applied at a concrete
string and the letter a (not in the stripped class). -/
theorem word_sanitize_exact_witness :
    (sanitizeText "a\u0000a").data.count 'a' = "a\u0000a".data.count 'a' :=
  word_sanitize_exact.2.2.1 "a\u0000a" 'a' (by decide)

/-! ## Excel writer sheet names (writers/excel_writer.py lines 184-196) -/

/-- The sheet title ExcelWriter._create_sheet hands to
Workbook.create_sheet: sheet_data.get("name", "Sheet1"), used verbatim -
the function performs no truncation or other normalization on it. -/
def ExcelWriter.createSheetTitle (name : Option String) : String :=
  name.getD "Sheet1"

/-- The titles of the worksheets created by ExcelWriter.create_workbook,
in order: _create_sheet is called once per entry of the sheets list. -/
def ExcelWriter.createdSheetTitles (names : List (Option String)) :
    List String :=
  names.map ExcelWriter.createSheetTitle

/-- C9 evaluation at the failing input: a requested 32-character sheet
name reaches the workbook at its full 32 characters; nothing truncates it
to 31.  The repo's own test (test_long_sheet_name_is_truncated in
tests/writers/test_excel_writer.py) asserts every written sheet name has
at most 31 characters, so the absence of truncation contradicts the
intended behavior. -/
theorem excel_sheet_name_not_truncated :
    ExcelWriter.createdSheetTitles
        [some "AbcdefghijAbcdefghijAbcdefghijAb"]
      = ["AbcdefghijAbcdefghijAbcdefghijAb"]
    ∧ (ExcelWriter.createSheetTitle
        (some "AbcdefghijAbcdefghijAbcdefghijAb")).length = 32
    ∧ ¬ ((ExcelWriter.createSheetTitle
        (some "AbcdefghijAbcdefghijAbcdefghijAb")).length ≤ 31) := by
  refine ⟨rfl, by decide, by decide⟩

/-! ## Canonical content model (utils/models.py) and the two read
operations of C7

The metadata mapping holds scalar values; file_size_mb is a Python float
in the code and is represented here through the byte size it is computed
from. -/

/-- A scalar metadata value. -/
inductive MetaValue where
  | nat (n : Nat)
  | str (s : String)
deriving DecidableEq, Repr

/-- One paragraph of an extracted word-doc body. -/
structure ParagraphData where
  text : String
  style : String
  level : Int
deriving DecidableEq, Repr

/-- One table of an extracted word-doc body. -/
structure TableData where
  rows : Nat
  columns : Nat
  data : List (List String)
deriving DecidableEq, Repr

/-- One sheet of an extracted Google spreadsheet body. -/
structure GSheetData where
  name : String
  data : List (List String)
  row_count : Nat
  column_count : Nat
deriving DecidableEq, Repr

/-- The format-specific content mapping of a DocumentContent, for the two
read operations modelled here. -/
inductive ContentBody where
  | word (paragraphs : List ParagraphData) (tables : List TableData)
  | googleSheets (title : String) (sheets : List GSheetData)
deriving DecidableEq, Repr

/-- utils/models.py DocumentContent. -/
structure DocumentContent where
  format_type : String
  metadata : List (String × MetaValue)
  content : ContentBody
deriving DecidableEq, Repr

/-- utils/models.py ReadResult. -/
structure ReadResult where
  success : Bool
  content : Option DocumentContent
  error : Option String
  file_path : String
deriving DecidableEq, Repr

/-! ## Word reader (readers/word_reader.py lines 31-162) -/

/-- A native paragraph as python-docx exposes it. -/
structure NativeParagraph where
  text : String
  style : String
deriving DecidableEq, Repr

/-- A native table: the native column count and the cell texts row by
row. -/
structure NativeDocxTable where
  ncols : Nat
  cells : List (List String)
deriving DecidableEq, Repr

/-- WordReader._extract_table: rows = len(table.rows), columns =
len(table.columns), each cell's text stripped independently. -/
def WordReader.extractTable (t : NativeDocxTable) : TableData :=
  { rows := t.cells.length, columns := t.ncols,
    data := t.cells.map (fun r => r.map pyStrip) }

/-- How opening and walking the document goes: a parsed document, a
PackageNotFoundError from python-docx, or any other exception with its
message.  (The except clause for FileNotFoundError / CorruptedFileError
inside read_file is unreachable: the try body raises neither.) -/
inductive DocxOpenOutcome where
  | ok (paragraphs : List NativeParagraph) (tables : List NativeDocxTable)
  | packageNotFound
  | otherError (msg : String)
deriving DecidableEq, Repr

/-- The source path as WordReader.read_file observes it: absent, or a
file of the given byte size whose parse has the given outcome. -/
inductive WordFsState where
  | missing
  | present (sizeBytes : Nat) (outcome : DocxOpenOutcome)
deriving DecidableEq, Repr

/-- WordReader.read_file.  Every branch returns a ReadResult value -
nothing is raised: missing path and oversized file return early with a
failed result, known parse errors and unexpected exceptions are caught
and converted, and the success path builds the DocumentContent from the
non-empty stripped paragraphs (empty ones are skipped) and the tables. -/
def WordReader.readFile (maxFileSizeMb : Nat) (filePath : String)
    (file : WordFsState) : ReadResult :=
  match file with
  | .missing =>
    { success := false, content := none,
      error := some ("指定されたファイルが見つかりません: " ++ filePath),
      file_path := filePath }
  | .present sizeBytes outcome =>
    if sizeBytes > maxFileSizeMb * 1048576 then
      { success := false, content := none,
        error := some ("ファイルサイズが制限を超えています: "
          ++ toString sizeBytes),
        file_path := filePath }
    else
      match outcome with
      | .packageNotFound =>
        { success := false, content := none,
          error := some ("Wordファイルが破損しているか、読み取り不可能です: "
            ++ filePath),
          file_path := filePath }
      | .otherError msg =>
        { success := false, content := none,
          error := some ("Wordファイルの読み取り中にエラーが発生しました: "
            ++ msg),
          file_path := filePath }
      | .ok paras tables =>
        let parasData := paras.filterMap (fun p =>
          let t := pyStrip p.text
          if t = "" then none
          else some { text := t, style := p.style,
                      level := WordReader.getHeadingLevel p.style })
        let tablesData := tables.map WordReader.extractTable
        { success := true,
          content := some
            { format_type := "docx",
              metadata :=
                [("paragraph_count", .nat parasData.length),
                 ("table_count", .nat tablesData.length),
                 ("file_size_bytes", .nat sizeBytes)],
              content := .word parasData tablesData },
          error := none,
          file_path := filePath }

/-! ## Google spreadsheet reader (readers/google_reader.py lines 220-378) -/

/-- The character class of the id patterns: [a-zA-Z0-9-_]. -/
def isIdChar (c : Char) : Bool :=
  c.isAlpha || c.isDigit || c = '-' || c = '_'

/-- Longest id-character run at the head of the list (the greedy + of the
regex group). -/
def takeIdChars : List Char → List Char
  | [] => []
  | c :: rest => if isIdChar c then c :: takeIdChars rest else []

/-- re.search of /d/([a-zA-Z0-9-_]+): first position where /d/ is
followed by at least one id character; returns the group. -/
def searchSlashD : List Char → Option (List Char)
  | [] => none
  | c0 :: rest =>
    match c0, rest with
    | '/', 'd' :: '/' :: c :: rest2 =>
      if isIdChar c then some (c :: takeIdChars rest2)
      else searchSlashD rest
    | _, _ => searchSlashD rest

/-- re.search of id=([a-zA-Z0-9-_]+). -/
def searchIdEq : List Char → Option (List Char)
  | [] => none
  | c0 :: rest =>
    match c0, rest with
    | 'i', 'd' :: '=' :: c :: rest2 =>
      if isIdChar c then some (c :: takeIdChars rest2)
      else searchIdEq rest
    | _, _ => searchIdEq rest

/-- GoogleWorkspaceReader._extract_file_id: try the /d/ pattern, then the
id= pattern; with no match the input is returned unchanged as a raw file
id. -/
def GoogleWorkspaceReader.extractFileId (fileIdOrUrl : String) : String :=
  match searchSlashD fileIdOrUrl.data with
  | some cs => String.mk cs
  | none =>
    match searchIdEq fileIdOrUrl.data with
    | some cs => String.mk cs
    | none => fileIdOrUrl

/-- One sheet of the API response tree: its title and its value rows. -/
structure GSheetValues where
  title : String
  values : List (List String)
deriving DecidableEq, Repr

/-- How the try body of read_spreadsheet ends: the full response data, an
HttpError with a status (from any of the wrapped fetches), or any other
exception - including the APIError the retry wrapper raises on
exhaustion, which the generic except clause catches. -/
inductive SheetsApiOutcome where
  | ok (title : String) (sheets : List GSheetValues)
  | httpError (status : Nat) (msg : String)
  | otherError (msg : String)
deriving DecidableEq, Repr

/-- max(len(row) for row in values) if values else 0. -/
def maxRowLen (rows : List (List String)) : Nat :=
  rows.foldr (fun r acc => max r.length acc) 0

/-- GoogleWorkspaceReader.read_spreadsheet: the file id is extracted
first and recorded as file_path of every outcome; HTTP 404 and 403 get
their dedicated messages, other statuses and unexpected exceptions get
generic ones, and the success path builds the DocumentContent with
name / data / row_count / column_count per sheet. -/
def GoogleWorkspaceReader.readSpreadsheet (fileIdOrUrl : String)
    (api : SheetsApiOutcome) : ReadResult :=
  let fileId := GoogleWorkspaceReader.extractFileId fileIdOrUrl
  match api with
  | .ok title sheets =>
    let sheetsData := sheets.map (fun sh =>
      { name := sh.title, data := sh.values,
        row_count := sh.values.length,
        column_count := maxRowLen sh.values })
    { success := true,
      content := some
        { format_type := "google_sheets",
          metadata :=
            [("title", .str title),
             ("sheet_count", .nat sheetsData.length),
             ("file_id", .str fileId)],
          content := .googleSheets title sheetsData },
      error := none,
      file_path := fileId }
  | .httpError status msg =>
    if status = 404 then
      { success := false, content := none,
        error := some ("指定されたGoogleスプレッドシートが見つかりません: "
          ++ fileId),
        file_path := fileId }
    else if status = 403 then
      { success := false, content := none,
        error := some ("Googleスプレッドシートへのアクセス権限がありません: "
          ++ fileId),
        file_path := fileId }
    else
      { success := false, content := none,
        error := some ("Googleスプレッドシートの読み取り中にエラーが発生しました: "
          ++ msg),
        file_path := fileId }
  | .otherError msg =>
    { success := false, content := none,
      error := some
        ("Googleスプレッドシートの読み取り中に予期しないエラーが発生しました: "
          ++ msg),
      file_path := fileId }

/-- A some-string built by appending to a non-empty literal is never the
empty string. -/
theorem ne_some_empty_of_append (pfx sfx : String) (h : pfx.data ≠ []) :
    some (pfx ++ sfx) ≠ some ("" : String) := by
  intro he
  injection he with he2
  have hd : (pfx ++ sfx).data = ("" : String).data := by rw [he2]
  rw [String.data_append] at hd
  exact h (List.append_eq_nil.mp hd).1

/-- The tagged-outcome property C7 states, as a predicate on a result and
the identifier the operation ran on. -/
def ReadResult.taggedOutcome (r : ReadResult) (identifier : String) : Prop :=
  (r.success = true → r.content.isSome = true ∧ r.error = none)
  ∧ (r.success = false →
      r.content = none ∧ r.error ≠ none ∧ r.error ≠ some "")
  ∧ r.file_path = identifier

/-- C7: every ReadResult of the two modelled read operations satisfies
the tagged-outcome invariant: success carries a populated content and no
error, failure carries a non-empty error string and no content, and
file_path always records the identifier operated on - the local path for
the word reader and the extracted cloud file id for the spreadsheet
reader. -/
theorem readresult_tagged_outcome
    (maxFileSizeMb : Nat) (filePath : String) (file : WordFsState)
    (url : String) (api : SheetsApiOutcome) :
    ReadResult.taggedOutcome
      (WordReader.readFile maxFileSizeMb filePath file) filePath
    ∧ ReadResult.taggedOutcome
      (GoogleWorkspaceReader.readSpreadsheet url api)
      (GoogleWorkspaceReader.extractFileId url) := by
  constructor
  · cases file with
    | missing =>
      refine ⟨?_, ?_, rfl⟩
      · intro h; simp [WordReader.readFile] at h
      · intro _
        exact ⟨rfl, by simp [WordReader.readFile],
          ne_some_empty_of_append _ _ (by decide)⟩
    | present sizeBytes outcome =>
      by_cases hsz : sizeBytes > maxFileSizeMb * 1048576
      · refine ⟨?_, ?_, ?_⟩
        · intro h; simp [WordReader.readFile, hsz] at h
        · intro _
          refine ⟨by simp [WordReader.readFile, hsz], ?_, ?_⟩
          · simp [WordReader.readFile, hsz]
          · simp only [WordReader.readFile, if_pos hsz]
            exact ne_some_empty_of_append _ _ (by decide)
        · simp [WordReader.readFile, hsz]
      · cases outcome with
        | ok paras tables =>
          refine ⟨?_, ?_, ?_⟩
          · intro _
            constructor <;> simp [WordReader.readFile, hsz]
          · intro h; simp [WordReader.readFile, hsz] at h
          · simp [WordReader.readFile, hsz]
        | packageNotFound =>
          refine ⟨?_, ?_, ?_⟩
          · intro h; simp [WordReader.readFile, hsz] at h
          · intro _
            refine ⟨by simp [WordReader.readFile, hsz], ?_, ?_⟩
            · simp [WordReader.readFile, hsz]
            · simp only [WordReader.readFile, if_neg hsz]
              exact ne_some_empty_of_append _ _ (by decide)
          · simp [WordReader.readFile, hsz]
        | otherError msg =>
          refine ⟨?_, ?_, ?_⟩
          · intro h; simp [WordReader.readFile, hsz] at h
          · intro _
            refine ⟨by simp [WordReader.readFile, hsz], ?_, ?_⟩
            · simp [WordReader.readFile, hsz]
            · simp only [WordReader.readFile, if_neg hsz]
              exact ne_some_empty_of_append _ _ (by decide)
          · simp [WordReader.readFile, hsz]
  · cases api with
    | ok title sheets =>
      refine ⟨?_, ?_, ?_⟩
      · intro _
        constructor <;> simp [GoogleWorkspaceReader.readSpreadsheet]
      · intro h; simp [GoogleWorkspaceReader.readSpreadsheet] at h
      · simp [GoogleWorkspaceReader.readSpreadsheet]
    | httpError status msg =>
      by_cases h404 : status = 404
      · refine ⟨?_, ?_, ?_⟩
        · intro h; simp [GoogleWorkspaceReader.readSpreadsheet, h404] at h
        · intro _
          refine ⟨by simp [GoogleWorkspaceReader.readSpreadsheet, h404], ?_, ?_⟩
          · simp [GoogleWorkspaceReader.readSpreadsheet, h404]
          · simp only [GoogleWorkspaceReader.readSpreadsheet, h404, if_pos]
            exact ne_some_empty_of_append _ _ (by decide)
        · simp [GoogleWorkspaceReader.readSpreadsheet, h404]
      · by_cases h403 : status = 403
        · refine ⟨?_, ?_, ?_⟩
          · intro h
            simp [GoogleWorkspaceReader.readSpreadsheet, h404, h403] at h
          · intro _
            refine ⟨by simp [GoogleWorkspaceReader.readSpreadsheet, h404, h403],
              ?_, ?_⟩
            · simp [GoogleWorkspaceReader.readSpreadsheet, h404, h403]
            · simp only [GoogleWorkspaceReader.readSpreadsheet, h404, h403,
                if_neg, if_pos, reduceIte]
              exact ne_some_empty_of_append _ _ (by decide)
          · simp [GoogleWorkspaceReader.readSpreadsheet, h404, h403]
        · refine ⟨?_, ?_, ?_⟩
          · intro h
            simp [GoogleWorkspaceReader.readSpreadsheet, h404, h403] at h
          · intro _
            refine ⟨by simp [GoogleWorkspaceReader.readSpreadsheet, h404, h403],
              ?_, ?_⟩
            · simp [GoogleWorkspaceReader.readSpreadsheet, h404, h403]
            · simp only [GoogleWorkspaceReader.readSpreadsheet, h404, h403,
                if_neg, reduceIte]
              exact ne_some_empty_of_append _ _ (by decide)
          · simp [GoogleWorkspaceReader.readSpreadsheet, h404, h403]
    | otherError msg =>
      refine ⟨?_, ?_, ?_⟩
      · intro h; simp [GoogleWorkspaceReader.readSpreadsheet] at h
      · intro _
        refine ⟨by simp [GoogleWorkspaceReader.readSpreadsheet], ?_, ?_⟩
        · simp [GoogleWorkspaceReader.readSpreadsheet]
        · simp only [GoogleWorkspaceReader.readSpreadsheet]
          exact ne_some_empty_of_append _ _ (by decide)
      · simp [GoogleWorkspaceReader.readSpreadsheet]

/-- Witness for C7: concrete outcomes - a missing word file fails with an
error recorded, an empty parsed document succeeds with no error, and a
404 on the spreadsheet fetch fails with its file_path recording the
extracted id. -/
theorem readresult_tagged_outcome_witness :
    (WordReader.readFile 100 "report.docx" WordFsState.missing).error ≠ none
    ∧ (WordReader.readFile 100 "report.docx" WordFsState.missing).content
        = none
    ∧ (WordReader.readFile 100 "report.docx"
        (WordFsState.present 0 (DocxOpenOutcome.ok [] []))).error = none
    ∧ (GoogleWorkspaceReader.readSpreadsheet "abc123"
        (SheetsApiOutcome.httpError 404 "nf")).content = none
    ∧ (GoogleWorkspaceReader.readSpreadsheet "abc123"
        (SheetsApiOutcome.httpError 404 "nf")).file_path
        = GoogleWorkspaceReader.extractFileId "abc123" := by
  have h1 := readresult_tagged_outcome 100 "report.docx" WordFsState.missing
    "abc123" (SheetsApiOutcome.httpError 404 "nf")
  have h2 := readresult_tagged_outcome 100 "report.docx"
    (WordFsState.present 0 (DocxOpenOutcome.ok [] []))
    "abc123" (SheetsApiOutcome.httpError 404 "nf")
  exact ⟨(h1.1.2.1 rfl).2.1, (h1.1.2.1 rfl).1, (h2.1.1 (by decide)).2,
    (h1.2.2.1 rfl).1, h1.2.2.2⟩
